import Mathlib

/-!
Shallow embedding of the order-payment settlement pipeline of the SDMS
repository (Django/Python), covering: the Product stock check
(store/models.py), the Order aggregate and totals (orders/models.py,
core/models.py SiteConfiguration), the Payment record and its lifecycle
methods (payments/models.py), the Paystack gateway adapter
(payments/gateways.py), the payment service (payments/services.py), and
the order/payment views (orders/views.py, payments/views.py), including
the routed webhook endpoint payments/views.py paystack_webhook.

Monetary Decimal values are embedded as rationals (Decimal arithmetic in
the touched code paths is exact).  Database tables are lists of records;
Django model saves with update_fields are embedded explicitly because
Django raises ValueError when update_fields names a non-field, which one
webhook code path does.  External HTTP effects (the Paystack API, JSON
parsing, HMAC) are parameters of the embedded functions.
-/

namespace SDMS

/-- store/models.py Product: the fields the pipeline reads.
has_active_flash_sale is time-dependent in the source; its boolean
outcome is a field here.  sale_price of 0 plays the role of the falsy
None/0 Decimal. -/
structure Product where
  pid : Nat
  title : String
  price : Rat
  sale_price : Rat
  flash_active : Bool
  is_active : Bool
  track_stock : Bool
  allow_backorder : Bool
  stock_quantity : Nat
  deriving Repr, DecidableEq

/-- store/models.py Product.get_display_price -/
def Product.get_display_price (p : Product) : Rat :=
  if p.flash_active || p.sale_price != 0 then p.sale_price else p.price

/-- store/models.py Product.can_purchase -/
def Product.can_purchase (p : Product) (quantity : Nat) : Bool :=
  if !p.is_active then false
  else if !p.track_stock then true
  else if p.allow_backorder then true
  else decide (p.stock_quantity >= quantity)

/-- store/models.py Product.reduce_stock (defined in the source, never
called by any pipeline operation). -/
def Product.reduce_stock (p : Product) (quantity : Nat) : Product × Bool :=
  if p.track_stock && decide (p.stock_quantity >= quantity) then
    ({ p with stock_quantity := p.stock_quantity - quantity }, true)
  else (p, false)

/-- core/models.py SiteConfiguration: the fields calculate_totals reads. -/
structure SiteConfig where
  default_shipping_cost : Rat
  free_shipping_threshold : Rat
  tax_rate : Rat
  deriving Repr, DecidableEq

/-- orders/models.py Order: the fields the pipeline reads or writes.
Timestamps are abstract ticks (Nat). -/
structure Order where
  oid : Nat
  user_id : Nat
  status : String
  fulfillment_type : String
  subtotal : Rat
  shipping_cost : Rat
  tax_amount : Rat
  total : Rat
  shipping_address : Option Nat
  tracking_number : String
  shipped_at : Option Nat
  delivered_at : Option Nat
  payment_reference : String
  paid_at : Option Nat
  deriving Repr, DecidableEq

/-- orders/models.py OrderItem -/
structure OrderItem where
  order_id : Nat
  product_id : Nat
  quantity : Nat
  price : Rat
  deriving Repr, DecidableEq

/-- orders/models.py CartItem (Cart is one-to-one with the user, so cart
items are keyed by the cart user directly). -/
structure CartItem where
  user_id : Nat
  product_id : Nat
  quantity : Nat
  deriving Repr, DecidableEq

/-- payments/models.py Payment: the fields the pipeline reads or writes.
gateway_data is an association list standing for the JSON blob. -/
structure Payment where
  payment_reference : String
  external_transaction_id : String
  user_id : Nat
  order_id : Nat
  amount : Rat
  currency : String
  status : String
  customer_email : String
  customer_name : String
  processed_at : Option Nat
  completed_at : Option Nat
  error_message : String
  error_code : String
  gateway_data : List (String × String)
  deriving Repr, DecidableEq

/-- payments/models.py Payment.amount_in_kobo: int(self.amount * 100). -/
def Payment.amount_in_kobo (p : Payment) : Int :=
  Rat.floor (p.amount * 100)

/-- payments/models.py Payment.is_successful -/
def Payment.is_successful (p : Payment) : Bool :=
  p.status == "success"

/-- payments/models.py PaymentWebhook audit row. -/
structure PaymentWebhook where
  webhook_id : String
  gateway_name : String
  event_type : String
  payment_reference : String
  processed : Bool
  processed_at : Option Nat
  deriving Repr, DecidableEq

/-- orders/models.py OrderStatusLog -/
structure OrderStatusLog where
  order_id : Nat
  previous_status : String
  new_status : String
  notes : String
  deriving Repr, DecidableEq

/-- The database state touched by the pipeline. The Cart rows themselves
carry no data beyond their user, so carts is the list of cart owners. -/
structure DB where
  products : List Product
  orders : List Order
  order_items : List OrderItem
  carts : List Nat
  cart_items : List CartItem
  payments : List Payment
  webhooks : List PaymentWebhook
  status_logs : List OrderStatusLog
  deriving Repr, DecidableEq

def DB.findProduct (db : DB) (pid : Nat) : Option Product :=
  db.products.find? (fun p => p.pid == pid)

def DB.findOrder (db : DB) (oid : Nat) : Option Order :=
  db.orders.find? (fun o => o.oid == oid)

def DB.findPayment (db : DB) (ref : String) : Option Payment :=
  db.payments.find? (fun p => p.payment_reference == ref)

def DB.cartItemsOf (db : DB) (u : Nat) : List CartItem :=
  db.cart_items.filter (fun ci => ci.user_id == u)

def DB.replaceOrder (db : DB) (o : Order) : DB :=
  { db with orders := db.orders.map (fun x => if x.oid == o.oid then o else x) }

def DB.replacePayment (db : DB) (p : Payment) : DB :=
  { db with payments :=
      db.payments.map (fun x => if x.payment_reference == p.payment_reference then p else x) }

/-- orders/models.py Cart.clear: delete all items of the cart. -/
def DB.clearCart (db : DB) (u : Nat) : DB :=
  { db with cart_items := db.cart_items.filter (fun ci => !(ci.user_id == u)) }

/-- Python dict.update on the embedded gateway_data association list:
entries of the update override existing keys and are appended otherwise. -/
def updateAssoc (base upd : List (String × String)) : List (String × String) :=
  upd.foldl (fun acc kv =>
    if acc.any (fun x => x.fst == kv.fst)
    then acc.map (fun x => if x.fst == kv.fst then kv else x)
    else acc ++ [kv]) base

/-- Python truthiness of an optional string argument (None and the empty
string are falsy). -/
def truthy : Option String → Bool
  | none => false
  | some s => !(s == "")

/-! ## payments/models.py: Payment lifecycle methods -/

/-- payments/models.py Payment.mark_as_processing -/
def Payment.mark_as_processing (now : Nat) (p : Payment) : Payment :=
  { p with status := "processing", processed_at := some now }

/-- payments/models.py Payment.mark_as_successful: sets the payment to
success unconditionally, overwrites external_transaction_id and merges
gateway_data when the arguments are truthy, then cascades into the order
(status paid, paid_at, payment_reference). -/
def Payment.mark_as_successful (now : Nat) (external_transaction_id : Option String)
    (additional_data : Option (List (String × String))) (p : Payment) (o : Order) :
    Payment × Order :=
  let p := { p with status := "success" }
  let p := if truthy external_transaction_id then
      { p with external_transaction_id := external_transaction_id.getD "" }
    else p
  let p := match additional_data with
    | some d => { p with gateway_data := updateAssoc p.gateway_data d }
    | none => p
  let p := { p with completed_at := some now }
  let o := { o with status := "paid", paid_at := some now,
                    payment_reference := p.payment_reference }
  (p, o)

/-- payments/models.py Payment.mark_as_failed: sets the payment to
failed unconditionally (no terminal-state guard in the source). -/
def Payment.mark_as_failed (error_message error_code : Option String) (p : Payment) : Payment :=
  let p := { p with status := "failed" }
  let p := if truthy error_message then
      { p with error_message := error_message.getD "" } else p
  let p := if truthy error_code then
      { p with error_code := error_code.getD "" } else p
  p

/-- payments/models.py Payment.mark_as_cancelled -/
def Payment.mark_as_cancelled (p : Payment) : Payment :=
  { p with status := "cancelled" }

/-! ## orders/models.py: Order methods -/

/-- orders/models.py OrderItem.get_total_price -/
def OrderItem.get_total_price (it : OrderItem) : Rat :=
  it.price * it.quantity

/-- orders/models.py Order.calculate_totals, with the SiteConfiguration
singleton passed explicitly and items the rows of items.all() for this
order. -/
def Order.calculate_totals (config : SiteConfig) (items : List OrderItem) (o : Order) : Order :=
  let subtotal := (items.map OrderItem.get_total_price).sum
  let shipping :=
    if o.fulfillment_type == "deliver" then
      if subtotal < config.free_shipping_threshold then config.default_shipping_cost
      else 0
    else 0
  let tax := subtotal * config.tax_rate
  { o with subtotal := subtotal, shipping_cost := shipping, tax_amount := tax,
           total := subtotal + shipping + tax }

/-- orders/models.py Order.liquidate_assets: acts only when
fulfillment_type is hold_asset and status is paid; switches fulfillment
to deliver, attaches the address, keeps status paid, and recalculates
totals. -/
def Order.liquidate_assets (config : SiteConfig) (items : List OrderItem)
    (shipping_address : Nat) (o : Order) : Order × Bool :=
  if o.fulfillment_type == "hold_asset" && o.status == "paid" then
    let o := { o with fulfillment_type := "deliver",
                      shipping_address := some shipping_address, status := "paid" }
    let o := o.calculate_totals config items
    (o, true)
  else (o, false)

/-! ## payments/gateways.py: PaystackGateway

The external Paystack API is a parameter: the initialize call outcome
and the verify call response are passed in, and the HMAC-SHA512 function
is an abstract parameter hmacFn applied to the secret and the raw body. -/

/-- The JSON envelope of a Paystack initialize response (the fields the
adapter reads). ok embeds the truthiness of data['status']. -/
structure InitResponse where
  ok : Bool
  authorization_url : String
  access_code : String
  deriving Repr, DecidableEq

/-- The JSON envelope of a Paystack verify response (the fields the
adapter reads): the envelope status and the transaction data. -/
structure VerifyResponse where
  ok : Bool
  txn_amount : Int
  txn_status : String
  txn_id : String
  gateway_response : String
  deriving Repr, DecidableEq

/-- Result dictionaries returned by the gateway methods: the success
flag and the message. -/
structure GwResult where
  success : Bool
  message : String
  deriving Repr, DecidableEq

/-- payments/gateways.py PaystackGateway.initialize_payment: on an ok
envelope stores the authorization url and access code into gateway_data;
otherwise leaves the payment untouched. Network failure is the ok=false
case here (both return success=false without mutation). -/
def PaystackGateway.initialize_payment (resp : InitResponse) (p : Payment) :
    Payment × GwResult :=
  if resp.ok then
    let gd := updateAssoc p.gateway_data
      [("authorization_url", resp.authorization_url),
       ("access_code", resp.access_code)]
    let p := { p with gateway_data := gd }
    (p, { success := true, message := "" })
  else
    (p, { success := false, message := "Payment initialization failed" })

/-- payments/gateways.py PaystackGateway.verify_payment: early return
when the payment is already successful; amount-mismatch check against
amount_in_kobo marking the payment failed with AMOUNT_MISMATCH; then
mark_as_successful or mark_as_failed by the transaction status. -/
def PaystackGateway.verify_payment (now : Nat) (resp : VerifyResponse)
    (p : Payment) (o : Order) : Payment × Order × GwResult :=
  if resp.ok then
    if p.is_successful then
      (p, o, { success := true, message := "Payment already verified" })
    else if !(resp.txn_amount == p.amount_in_kobo) then
      (p.mark_as_failed (some "Amount mismatch") (some "AMOUNT_MISMATCH"), o,
       { success := false, message := "Amount mismatch" })
    else if resp.txn_status == "success" then
      let (p, o) := Payment.mark_as_successful now (some resp.txn_id)
        (some [("paystack_data", resp.gateway_response)]) p o
      (p, o, { success := true, message := "Payment verified successfully" })
    else
      (p.mark_as_failed (some ("Transaction failed: " ++ resp.gateway_response))
         (some resp.txn_status), o,
       { success := false, message := "Transaction failed" })
  else
    (p, o, { success := false, message := "Payment verification failed" })

/-- The parsed JSON body of a webhook request: the event name, the
top-level id, and the data object fields the handlers read. -/
structure WebhookPayload where
  event : String
  top_id : String
  reference : String
  amount : Int
  txn_status : String
  txn_id : String
  gateway_response : String
  deriving Repr, DecidableEq

/-- payments/gateways.py PaystackGateway._verify_webhook_signature:
hmac.compare_digest of the computed HMAC-SHA512 and the header value
(extensionally, equality of the two strings). -/
def PaystackGateway.verify_webhook_signature (hmacFn : String → String → String)
    (secret payload signature : String) : Bool :=
  hmacFn secret payload == signature

/-- payments/gateways.py PaystackGateway._handle_successful_charge:
looks the payment up by reference and, with no idempotency guard and no
amount comparison, calls mark_as_successful; the audit row is marked
processed on both paths. -/
def PaystackGateway.handle_successful_charge (now : Nat) (data : WebhookPayload)
    (wid : String) (db : DB) : DB × GwResult :=
  let markProcessed := fun (d : DB) =>
    { d with webhooks := d.webhooks.map (fun w =>
        if w.webhook_id == wid then
          { w with processed := true, processed_at := some now } else w) }
  match db.findPayment data.reference with
  | some p =>
    match db.findOrder p.order_id with
    | some o =>
      let (p, o) := Payment.mark_as_successful now (some data.txn_id)
        (some [("paystack_data", data.gateway_response)]) p o
      let db := (db.replacePayment p).replaceOrder o
      (markProcessed db, { success := true, message := "Payment marked as successful via webhook" })
    | none =>
      (markProcessed db, { success := false, message := "Payment not found for webhook" })
  | none =>
    (markProcessed db, { success := false, message := "Payment not found for webhook" })

/-- payments/gateways.py PaystackGateway._handle_failed_charge: looks
the payment up by reference and calls mark_as_failed with no
terminal-state guard; the audit row is marked processed on both paths. -/
def PaystackGateway.handle_failed_charge (now : Nat) (data : WebhookPayload)
    (wid : String) (db : DB) : DB × GwResult :=
  let markProcessed := fun (d : DB) =>
    { d with webhooks := d.webhooks.map (fun w =>
        if w.webhook_id == wid then
          { w with processed := true, processed_at := some now } else w) }
  match db.findPayment data.reference with
  | some p =>
    let p := p.mark_as_failed (some data.gateway_response) (some data.txn_status)
    (markProcessed (db.replacePayment p),
     { success := true, message := "Payment marked as failed via webhook" })
  | none =>
    (markProcessed db, { success := false, message := "Payment not found for webhook" })

/-- payments/gateways.py PaystackGateway.process_webhook: signature
check, JSON parse (a parameter parse on the raw body), unconditional
PaymentWebhook audit row creation, then dispatch by event type.  The
webhook_id column is unique, so creating a duplicate raises an
IntegrityError that the surrounding except turns into a failure result
with no new row. -/
def PaystackGateway.process_webhook (hmacFn : String → String → String)
    (parse : String → Option WebhookPayload) (secret : String) (now : Nat)
    (db : DB) (payload signature : String) : DB × GwResult :=
  if !(PaystackGateway.verify_webhook_signature hmacFn secret payload signature) then
    (db, { success := false, message := "Invalid webhook signature" })
  else
    match parse payload with
    | none => (db, { success := false, message := "Invalid JSON payload" })
    | some wd =>
      if db.webhooks.any (fun w => w.webhook_id == wd.top_id) then
        (db, { success := false, message := "Webhook processing error: duplicate webhook_id" })
      else
        let row : PaymentWebhook :=
          { webhook_id := wd.top_id, gateway_name := "paystack",
            event_type := wd.event, payment_reference := wd.reference,
            processed := false, processed_at := none }
        let db := { db with webhooks := row :: db.webhooks }
        if wd.event == "charge.success" then
          PaystackGateway.handle_successful_charge now wd wd.top_id db
        else if wd.event == "charge.failed" then
          PaystackGateway.handle_failed_charge now wd wd.top_id db
        else if wd.event == "transfer.success" then
          let db := { db with webhooks := db.webhooks.map (fun w =>
            if w.webhook_id == wd.top_id then
              { w with processed := true, processed_at := some now } else w) }
          (db, { success := true, message := "Transfer webhook processed" })
        else
          let db := { db with webhooks := db.webhooks.map (fun w =>
            if w.webhook_id == wd.top_id then
              { w with processed := true, processed_at := some now } else w) }
          (db, { success := true, message := "Webhook processed: " ++ wd.event })

/-! ## payments/services.py: PaymentService -/

/-- payments/services.py PaymentService._validate_payment -/
def PaymentService.validate_payment (p : Payment) : Bool :=
  if p.amount <= 0 then false
  else if p.customer_email == "" then false
  else true

/-- payments/services.py PaymentService.initialize_payment: validation,
then the gateway initialize call, then mark_as_processing when the
gateway reported success. -/
def PaymentService.initialize_payment (now : Nat) (resp : InitResponse)
    (p : Payment) : Payment × GwResult :=
  if !(PaymentService.validate_payment p) then
    (p, { success := false, message := "invalid payment" })
  else
    let (p, result) := PaystackGateway.initialize_payment resp p
    if result.success then (p.mark_as_processing now, result)
    else (p, result)

/-! ## Django save(update_fields=...) semantics

Model.save(update_fields=[...]) raises ValueError when a listed name is
not a concrete field of the model.  The webhook view passes
raw_response, which is not a field of Payment, so its saves raise. -/

/-- The concrete field names of payments/models.py Payment (with the
BaseModel columns). -/
def paymentFieldNames : List String :=
  ["id", "created_at", "updated_at", "payment_reference",
   "external_transaction_id", "user", "order", "amount", "currency",
   "payment_method", "status", "customer_email", "customer_phone",
   "customer_name", "initiated_at", "processed_at", "completed_at",
   "error_message", "error_code", "gateway_data"]

/-- The concrete field names of orders/models.py Order (with the
BaseModel columns). -/
def orderFieldNames : List String :=
  ["id", "created_at", "updated_at", "user", "order_number", "status",
   "fulfillment_type", "subtotal", "shipping_cost", "tax_amount", "total",
   "shipping_address", "tracking_number", "shipped_at", "delivered_at",
   "payment_reference", "payment_method", "paid_at", "customer_notes",
   "admin_notes"]

/-- payment.save(update_fields=fields): persists the new row when every
listed name is a Payment field, raises ValueError otherwise. -/
def DB.savePaymentUpdateFields (db : DB) (fields : List String) (p : Payment) :
    Except String DB :=
  if fields.all (fun f => paymentFieldNames.contains f) then
    Except.ok (db.replacePayment p)
  else Except.error "ValueError: update_fields names a non-field"

/-- order.save(update_fields=fields): persists the new row when every
listed name is an Order field, raises ValueError otherwise. -/
def DB.saveOrderUpdateFields (db : DB) (fields : List String) (o : Order) :
    Except String DB :=
  if fields.all (fun f => orderFieldNames.contains f) then
    Except.ok (db.replaceOrder o)
  else Except.error "ValueError: update_fields names a non-field"

/-! ## payments/views.py paystack_webhook (the routed webhook endpoint) -/

/-- An inbound webhook HTTP request: the raw body and the
x-paystack-signature header. -/
structure HttpRequest where
  body : String
  signature : Option String
  deriving Repr, DecidableEq

/-- payments/views.py paystack_webhook.  Returns the database and the
HTTP status code.  The three charge branches run inside
transaction.atomic, so when a save in them raises, the writes before it
are rolled back and the outer except returns 500.  The success and
failed branches assign payment.raw_response and then pass raw_response
in update_fields; the pending branch guards on the status value
initiated, which no code path ever assigns. -/
def paystack_webhook (hmacFn : String → String → String)
    (parse : String → Option WebhookPayload) (secret : String) (now : Nat)
    (db : DB) (req : HttpRequest) : DB × Nat :=
  match req.signature with
  | none => (db, 400)
  | some signature =>
    if !(hmacFn secret req.body == signature) then (db, 400)
    else
      match parse req.body with
      | none => (db, 400)
      | some payload =>
        if payload.event == "charge.success" then
          match db.findPayment payload.reference with
          | none => (db, 404)
          | some payment =>
            match db.findOrder payment.order_id with
            | none => (db, 500)
            | some order =>
              if !(payment.status == "success") && payload.txn_status == "success" then
                let attempt : Except String DB := do
                  let o := { order with status := "paid", paid_at := some now }
                  let db1 ← db.saveOrderUpdateFields ["status", "paid_at"] o
                  let p := { payment with status := "success" }
                  let db2 ← db1.savePaymentUpdateFields ["status", "raw_response"] p
                  pure (if db2.carts.contains payment.user_id then
                          db2.clearCart payment.user_id
                        else db2)
                match attempt with
                | Except.ok db2 => (db2, 200)
                | Except.error _ => (db, 500)
              else (db, 200)
        else if payload.event == "charge.failed" then
          match db.findPayment payload.reference with
          | none => (db, 404)
          | some payment =>
            match db.findOrder payment.order_id with
            | none => (db, 500)
            | some order =>
              if !(payment.status == "success") && !(payment.status == "failed") then
                let attempt : Except String DB := do
                  let o := { order with status := "payment_failed" }
                  let db1 ← db.saveOrderUpdateFields ["status"] o
                  let p := { payment with status := "failed" }
                  let db2 ← db1.savePaymentUpdateFields ["status", "raw_response"] p
                  pure db2
                match attempt with
                | Except.ok db2 => (db2, 200)
                | Except.error _ => (db, 500)
              else (db, 200)
        else if payload.event == "charge.pending" then
          match db.findPayment payload.reference with
          | none => (db, 404)
          | some payment =>
            match db.findOrder payment.order_id with
            | none => (db, 500)
            | some order =>
              if payment.status == "initiated" then
                let attempt : Except String DB := do
                  let o := { order with status := "payment_pending" }
                  let db1 ← db.saveOrderUpdateFields ["status"] o
                  let p := { payment with status := "pending" }
                  let db2 ← db1.savePaymentUpdateFields ["status", "raw_response"] p
                  pure db2
                match attempt with
                | Except.ok db2 => (db2, 200)
                | Except.error _ => (db, 500)
              else (db, 200)
        else (db, 200)

/-! ## payments/views.py initiate_payment

The fulfillment-type validation and the shipping-address resolution
(lines 30-88) precede the transaction; the address is passed here
already resolved as an optional id.  Everything from transaction.atomic
on is embedded: cart lookup, the can_purchase re-check over every cart
item, Order / OrderItem / Payment creation, calculate_totals, the
service initialize call, and the order.delete() compensation (which
cascades to the OrderItem rows and the Payment row) when initialization
fails.  newOrderId and newRef stand for the generated Order id and
PAY_ payment reference. -/

/-- A JsonResponse of the order/payment views: the success flag, the
HTTP status code and the message. -/
structure ViewResult where
  success : Bool
  http_status : Nat
  message : String
  deriving Repr, DecidableEq

/-- order.delete() with the cascading deletes of its OrderItem rows and
its one-to-one Payment row. -/
def DB.deleteOrderCascade (db : DB) (oid : Nat) : DB :=
  { db with
    orders := db.orders.filter (fun o => !(o.oid == oid)),
    order_items := db.order_items.filter (fun it => !(it.order_id == oid)),
    payments := db.payments.filter (fun p => !(p.order_id == oid)) }

/-- The display price of a cart item through its product row (the FK
guarantees the product exists; a dangling reference prices at 0). -/
def DB.displayPriceOf (db : DB) (pid : Nat) : Rat :=
  match db.findProduct pid with
  | some p => p.get_display_price
  | none => 0

/-- cart_item.product.can_purchase(cart_item.quantity) through the
product row (the FK guarantees the product exists; a dangling reference
fails the check). -/
def DB.canPurchaseItem (db : DB) (ci : CartItem) : Bool :=
  match db.findProduct ci.product_id with
  | some p => p.can_purchase ci.quantity
  | none => false

/-- The title of the product of a cart item (empty for a dangling
reference). -/
def DB.titleOf (db : DB) (pid : Nat) : String :=
  match db.findProduct pid with
  | some p => p.title
  | none => ""

/-- payments/views.py initiate_payment, from the transaction.atomic
block on. -/
def initiate_payment (config : SiteConfig) (now : Nat) (initResp : InitResponse)
    (newOrderId : Nat) (newRef : String) (db : DB) (userId : Nat)
    (fulfillment_type : String) (shipping_address : Option Nat)
    (customer_email customer_name : String) : DB × ViewResult :=
  if !(fulfillment_type == "hold_asset" || fulfillment_type == "deliver") then
    (db, { success := false, http_status := 400, message := "Invalid fulfillment type" })
  else if !(db.carts.contains userId) then
    (db, { success := false, http_status := 400, message := "Cart not found" })
  else
    let cart_items := db.cartItemsOf userId
    if cart_items.isEmpty then
      (db, { success := false, http_status := 400, message := "Cart is empty" })
    else
      match cart_items.find? (fun ci => !(db.canPurchaseItem ci)) with
      | some ci =>
        (db, { success := false, http_status := 400,
               message := db.titleOf ci.product_id ++
                 " is out of stock or has insufficient quantity" })
      | none =>
        let order : Order :=
          { oid := newOrderId, user_id := userId, status := "pending",
            fulfillment_type := fulfillment_type, subtotal := 0,
            shipping_cost := 0, tax_amount := 0, total := 0,
            shipping_address := shipping_address, tracking_number := "",
            shipped_at := none, delivered_at := none,
            payment_reference := "", paid_at := none }
        let db1 := { db with orders := order :: db.orders }
        let new_items := cart_items.map (fun ci =>
          { order_id := newOrderId, product_id := ci.product_id,
            quantity := ci.quantity,
            price := db.displayPriceOf ci.product_id : OrderItem })
        let db2 := { db1 with order_items := new_items ++ db1.order_items }
        let order2 := order.calculate_totals config new_items
        let db3 := db2.replaceOrder order2
        let payment : Payment :=
          { payment_reference := newRef, external_transaction_id := "",
            user_id := userId, order_id := newOrderId, amount := order2.total,
            currency := "NGN", status := "pending",
            customer_email := customer_email, customer_name := customer_name,
            processed_at := none, completed_at := none, error_message := "",
            error_code := "", gateway_data := [] }
        let db4 := { db3 with payments := payment :: db3.payments }
        let (p1, result) := PaymentService.initialize_payment now initResp payment
        let db5 := db4.replacePayment p1
        if result.success then
          (db5, { success := true, http_status := 200,
                  message := "Payment initiated successfully" })
        else
          (db5.deleteOrderCascade newOrderId,
           { success := false, http_status := 400, message := result.message })

/-! ## orders/views.py create_order

The shipping-address resolution is elided as in initiate_payment.  The
view creates the Order first, then walks the cart items, deleting the
order (cascading to its items) and returning which item is out of stock
as soon as a can_purchase re-check fails; on success it computes totals
and clears the cart. -/

/-- The item-creation loop of create_order: creates an OrderItem per
cart item, stopping with the failing product title when a can_purchase
re-check fails. -/
def createOrderItemsLoop (newOrderId : Nat) (db : DB) :
    List CartItem → Except String DB
  | [] => Except.ok db
  | ci :: rest =>
    if !(db.canPurchaseItem ci) then
      Except.error (db.titleOf ci.product_id ++ " is out of stock")
    else
      let db := { db with order_items :=
        ({ order_id := newOrderId, product_id := ci.product_id,
           quantity := ci.quantity,
           price := db.displayPriceOf ci.product_id : OrderItem }) :: db.order_items }
      createOrderItemsLoop newOrderId db rest

/-- orders/views.py create_order, from the cart fetch on. -/
def create_order (config : SiteConfig) (newOrderId : Nat) (db : DB)
    (userId : Nat) (fulfillment_type : String) (shipping_address : Option Nat) :
    DB × ViewResult :=
  let cart_items := db.cartItemsOf userId
  if cart_items.isEmpty then
    (db, { success := false, http_status := 200, message := "Cart is empty" })
  else if !(fulfillment_type == "hold_asset" || fulfillment_type == "deliver") then
    (db, { success := false, http_status := 200,
           message := "Invalid fulfillment type: " ++ fulfillment_type })
  else
    let order : Order :=
      { oid := newOrderId, user_id := userId, status := "pending",
        fulfillment_type := fulfillment_type, subtotal := 0,
        shipping_cost := 0, tax_amount := 0, total := 0,
        shipping_address := shipping_address, tracking_number := "",
        shipped_at := none, delivered_at := none,
        payment_reference := "", paid_at := none }
    let db1 := { db with orders := order :: db.orders }
    match createOrderItemsLoop newOrderId db1 cart_items with
    | Except.error msg =>
      (db1.deleteOrderCascade newOrderId,
       { success := false, http_status := 200, message := msg })
    | Except.ok db2 =>
      let own_items := db2.order_items.filter (fun it => it.order_id == newOrderId)
      let order2 := order.calculate_totals config own_items
      let db3 := db2.replaceOrder order2
      let db4 := db3.clearCart userId
      (db4, { success := true, http_status := 200, message := "" })

/-! ## Remaining pipeline views -/

/-- payments/views.py payment_verification: fetches the payment of the
user by reference and runs the gateway verify on it. -/
def payment_verification (now : Nat) (resp : VerifyResponse) (db : DB)
    (reference : String) (userId : Nat) : DB × Bool :=
  match db.findPayment reference with
  | none => (db, false)
  | some p =>
    if !(p.user_id == userId) then (db, false)
    else
      match db.findOrder p.order_id with
      | none => (db, false)
      | some o =>
        let (p1, o1, r) := PaystackGateway.verify_payment now resp p o
        (((db.replacePayment p1).replaceOrder o1), r.success)

/-- orders/views.py cancel_order: only pending orders of the requesting
user are cancelled (the stray cancelled_at attribute is not a model
field and the full save ignores it). -/
def cancel_order (db : DB) (orderId userId : Nat) : DB × Bool :=
  match db.findOrder orderId with
  | none => (db, false)
  | some o =>
    if !(o.user_id == userId) then (db, false)
    else if !(o.status == "pending") then (db, false)
    else ((db.replaceOrder { o with status := "cancelled" }), true)

/-- core/analytics_views.py update_order_status: the only transition
validation is that delivered requires the current status to be shipped;
any other requested status string is applied as-is and a status-change
log row is appended. -/
def update_order_status (now : Nat) (db : DB) (orderId : Nat)
    (new_status notes : String) : DB × Bool :=
  match db.findOrder orderId with
  | none => (db, false)
  | some o =>
    if new_status == "delivered" && !(o.status == "shipped") then (db, false)
    else
      let o1 := { o with
        status := new_status
        shipped_at := if new_status == "shipped" then some now else o.shipped_at
        delivered_at := if new_status == "delivered" then some now else o.delivered_at }
      let db1 := db.replaceOrder o1
      let db2 := { db1 with status_logs :=
        ({ order_id := orderId, previous_status := o.status,
           new_status := new_status, notes := notes : OrderStatusLog }) :: db1.status_logs }
      (db2, true)

/-- orders/views.py liquidate_asset: guards on hold_asset and paid, then
defers to Order.liquidate_assets. -/
def liquidate_asset (config : SiteConfig) (db : DB) (orderId userId : Nat)
    (shipping_address : Nat) : DB × Bool :=
  match db.findOrder orderId with
  | none => (db, false)
  | some o =>
    if !(o.user_id == userId) then (db, false)
    else if !(o.fulfillment_type == "hold_asset") || !(o.status == "paid") then (db, false)
    else
      let own_items := db.order_items.filter (fun it => it.order_id == orderId)
      let (o1, ok) := o.liquidate_assets config own_items shipping_address
      if ok then (db.replaceOrder o1, true) else (db, false)

/-- Modelled from the spec (section 3, claim C8): the allowed Order
status transitions of the specified state machine, for comparison with
what the code performs: pending→paid→shipped→delivered,
pending→cancelled, and paid→liquidated only for hold_asset fulfillment. -/
def specAllowedTransition (fulfillment prev next : String) : Bool :=
  (prev == "pending" && next == "paid") ||
  (prev == "paid" && next == "shipped") ||
  (prev == "shipped" && next == "delivered") ||
  (prev == "pending" && next == "cancelled") ||
  (prev == "paid" && next == "liquidated" && fulfillment == "hold_asset")

/-! ## Helper lemmas -/

theorem products_replaceOrder (db : DB) (o : Order) :
    (db.replaceOrder o).products = db.products := rfl

theorem products_replacePayment (db : DB) (p : Payment) :
    (db.replacePayment p).products = db.products := rfl

theorem products_clearCart (db : DB) (u : Nat) :
    (db.clearCart u).products = db.products := rfl

theorem products_deleteOrderCascade (db : DB) (oid : Nat) :
    (db.deleteOrderCascade oid).products = db.products := rfl

theorem createOrderItemsLoop_products (newId : Nat) :
    ∀ (l : List CartItem) (db db' : DB),
      createOrderItemsLoop newId db l = Except.ok db' → db'.products = db.products := by
  intro l
  induction l with
  | nil =>
    intro db db' h
    simp only [createOrderItemsLoop] at h
    cases h
    rfl
  | cons ci rest ih =>
    intro db db' h
    simp only [createOrderItemsLoop] at h
    by_cases hc : db.canPurchaseItem ci
    · simp only [hc, Bool.not_true] at h
      have := ih _ _ h
      simpa using this
    · simp only [Bool.not_eq_true] at hc
      simp [hc] at h

theorem canPurchaseItem_order_items (db : DB) (l : List OrderItem) (ci : CartItem) :
    (DB.canPurchaseItem { db with order_items := l } ci) = db.canPurchaseItem ci := rfl

theorem titleOf_order_items (db : DB) (l : List OrderItem) (pid : Nat) :
    (DB.titleOf { db with order_items := l } pid) = db.titleOf pid := rfl

/-! ## Concrete fixtures (spec section 8, Scenario A figures): one
tracked product, one cart with quantity 2 at unit price 5000, a pending
deliver order totalling 11750 with its pending payment PAY_1. -/

def sampleConfig : SiteConfig :=
  { default_shipping_cost := 1000, free_shipping_threshold := 15000,
    tax_rate := (75 : Rat) / 1000 }

def prodA : Product :=
  { pid := 1, title := "Widget", price := 5000, sale_price := 0,
    flash_active := false, is_active := true, track_stock := true,
    allow_backorder := false, stock_quantity := 2 }

def cartItemA : CartItem := { user_id := 1, product_id := 1, quantity := 2 }

def oPending : Order :=
  { oid := 1, user_id := 1, status := "pending", fulfillment_type := "deliver",
    subtotal := 10000, shipping_cost := 1000, tax_amount := 750, total := 11750,
    shipping_address := some 1, tracking_number := "", shipped_at := none,
    delivered_at := none, payment_reference := "", paid_at := none }

def pPending : Payment :=
  { payment_reference := "PAY_1", external_transaction_id := "",
    user_id := 1, order_id := 1, amount := 11750, currency := "NGN",
    status := "pending", customer_email := "u@example.com",
    customer_name := "U Ser", processed_at := none, completed_at := none,
    error_message := "", error_code := "", gateway_data := [] }

def pSuccess : Payment :=
  { pPending with status := "success", external_transaction_id := "T1",
                  completed_at := some 3 }

def dbPending : DB :=
  { products := [prodA], orders := [oPending], order_items := [],
    carts := [1], cart_items := [cartItemA], payments := [pPending],
    webhooks := [], status_logs := [] }

def plChargeSuccess : WebhookPayload :=
  { event := "charge.success", top_id := "WH1", reference := "PAY_1",
    amount := 1175000, txn_status := "success", txn_id := "T1",
    gateway_response := "Approved" }

def plMismatch : WebhookPayload :=
  { plChargeSuccess with amount := 1, top_id := "WH2" }

def plOther : WebhookPayload :=
  { plChargeSuccess with event := "charge.other", top_id := "WH3" }

/-- A stand-in HMAC for witnesses: key concatenated with the message. -/
def concatHmac (secret body : String) : String := secret ++ body

def reqValid : HttpRequest := { body := "B", signature := some "skB" }

/-! ## C6: calculate_totals invariants -/

/-- C6: after every calculate_totals call, total equals
subtotal + shipping_cost + tax_amount, with subtotal the sum of
price × quantity over the order items, shipping zero unless the order is
a deliver order below the free-shipping threshold (then the configured
default), and tax the subtotal times the configured rate. -/
theorem c6_calculate_totals_invariant (config : SiteConfig)
    (items : List OrderItem) (o : Order) :
    (Order.calculate_totals config items o).total
        = (Order.calculate_totals config items o).subtotal
          + (Order.calculate_totals config items o).shipping_cost
          + (Order.calculate_totals config items o).tax_amount
    ∧ (Order.calculate_totals config items o).subtotal
        = (items.map (fun it => it.price * (it.quantity : Rat))).sum
    ∧ (Order.calculate_totals config items o).shipping_cost
        = (if o.fulfillment_type = "deliver" then
             if (Order.calculate_totals config items o).subtotal
                 < config.free_shipping_threshold then
               config.default_shipping_cost
             else 0
           else 0)
    ∧ (Order.calculate_totals config items o).tax_amount
        = (Order.calculate_totals config items o).subtotal * config.tax_rate := by
  refine ⟨rfl, rfl, ?_, rfl⟩
  by_cases h : o.fulfillment_type = "deliver" <;>
    simp [Order.calculate_totals, h]

/-! ## C1: success as a terminal payment state -/

/-- C1 (counterexample): Payment.mark_as_failed carries no
terminal-state guard, so calling it on a payment whose status is already
success changes the status to failed, contradicting the claim that such
calls leave the status unchanged. -/
theorem c1_mark_as_failed_counterexample :
    pSuccess.status = "success"
    ∧ ¬ ((pSuccess.mark_as_failed (some "late failure") (some "FAILED")).status
          = pSuccess.status) := by
  decide

/-- C1 (amended): once a Payment has status success, mark_as_successful
leaves its amount and status unchanged, and success/failure webhook
processing through the routed paystack_webhook view leaves the whole
database unchanged; mark_as_failed, however, is unguarded and flips the
status to failed, and mark_as_successful may overwrite
external_transaction_id. -/
theorem c1_success_terminal_amended (p : Payment) (h : p.status = "success") :
    (∀ (now : Nat) (ext : Option String) (add : Option (List (String × String)))
        (o : Order),
        (Payment.mark_as_successful now ext add p o).1.amount = p.amount
        ∧ (Payment.mark_as_successful now ext add p o).1.status = p.status)
    ∧ (∀ (hmacFn : String → String → String)
        (parse : String → Option WebhookPayload) (secret : String) (now : Nat)
        (db : DB) (req : HttpRequest) (payload : WebhookPayload),
        parse req.body = some payload →
        db.findPayment payload.reference = some p →
        (paystack_webhook hmacFn parse secret now db req).1 = db) := by
  constructor
  · intro now ext add o
    constructor
    · simp only [Payment.mark_as_successful]
      cases add <;> by_cases ht : truthy ext <;> simp [ht]
    · simp only [Payment.mark_as_successful]
      cases add <;> by_cases ht : truthy ext <;> simp [ht, h]
  · intro hmacFn parse secret now db req payload hparse hfind
    cases hs : req.signature with
    | none => simp [paystack_webhook, hs]
    | some s =>
      by_cases hh : hmacFn secret req.body == s
      · simp only [paystack_webhook, hs, hh, hparse, hfind, Bool.not_true]
        by_cases e1 : payload.event == "charge.success"
        · cases ho : db.findOrder p.order_id <;> simp [e1, ho, h]
        · by_cases e2 : payload.event == "charge.failed"
          · cases ho : db.findOrder p.order_id <;> simp [e1, e2, ho, h]
          · by_cases e3 : payload.event == "charge.pending"
            · cases ho : db.findOrder p.order_id <;> simp [e1, e2, e3, ho, h]
            · simp [e1, e2, e3]
      · simp [paystack_webhook, hs, hh]

/-- C1 witness for the amended theorem at the concrete success payment
PAY_1 and a replayed successful-charge webhook. -/
theorem c1_success_terminal_witness :
    (Payment.mark_as_successful 9 (some "T2") none pSuccess oPending).1.status
      = pSuccess.status
    ∧ (paystack_webhook concatHmac (fun _ => some plChargeSuccess) "sk" 7
        { dbPending with payments := [pSuccess] } reqValid).1
      = { dbPending with payments := [pSuccess] } :=
  ⟨((c1_success_terminal_amended pSuccess rfl).1 9 (some "T2") none oPending).2,
   (c1_success_terminal_amended pSuccess rfl).2 concatHmac
     (fun _ => some plChargeSuccess) "sk" 7
     { dbPending with payments := [pSuccess] } reqValid plChargeSuccess rfl
     (by decide)⟩

/-! ## C2: idempotent successful-charge webhook delivery -/

/-- C2 (code_bug): a valid successful-charge webhook for the pending
payment PAY_1 never reaches the paid state at all: the view saves the
payment with update_fields naming raw_response, which is not a Payment
field, so the save raises, the transaction rolls back, and the endpoint
answers 500 with the database unchanged — on the first delivery and on
every replay alike.  The order therefore stays pending and the cart is
never cleared, against the claimed paid-exactly-once outcome. -/
theorem c2_webhook_success_crash :
    paystack_webhook concatHmac (fun _ => some plChargeSuccess) "sk" 7
        dbPending reqValid = (dbPending, 500)
    ∧ (dbPending.findOrder 1).map Order.status = some "pending"
    ∧ ¬ (dbPending.cartItemsOf 1 = []) := by
  decide

/-! ## C3: amount verification before the paid transition -/

/-- C3 (code_bug): neither webhook implementation compares the reported
amount with the stored amount.  The gateway handler marks the payment
PAY_1 successful even though the webhook reports 1 kobo against the
stored 1175000 kobo, instead of treating the mismatch as failed; the
routed view ignores the amount too and answers 500 from the raw_response
save. -/
theorem c3_no_amount_check :
    ¬ (plMismatch.amount = pPending.amount_in_kobo)
    ∧ ((PaystackGateway.process_webhook concatHmac (fun _ => some plMismatch)
          "sk" 7 dbPending "B" "skB").1.findPayment "PAY_1").map Payment.status
        = some "success"
    ∧ ¬ (((PaystackGateway.process_webhook concatHmac (fun _ => some plMismatch)
          "sk" 7 dbPending "B" "skB").1.findPayment "PAY_1").map Payment.error_code
        = some "AMOUNT_MISMATCH")
    ∧ (paystack_webhook concatHmac (fun _ => some plMismatch) "sk" 7
        dbPending reqValid).2 = 500 := by
  have hk : pPending.amount_in_kobo = 1175000 := by
    have h100 : (pPending.amount * 100 : Rat) = ((1175000 : Int) : Rat) := by
      norm_num [pPending]
    simp [Payment.amount_in_kobo, h100, Rat.floor_def']
  exact ⟨by rw [hk]; decide, by decide, by decide, by decide⟩

/-! ## C4: signature verification rejects without side effects -/

/-- C4: a webhook request whose signature header is absent or does not
equal the HMAC of the raw body under the shared secret is rejected (HTTP
400 by the routed view, an invalid-signature failure by the gateway
adapter) with the database — payments, orders, and audit rows —
untouched. -/
theorem c4_invalid_signature_rejected
    (hmacFn : String → String → String) (parse : String → Option WebhookPayload)
    (secret : String) (now : Nat) (db : DB) (req : HttpRequest)
    (h : ∀ s, req.signature = some s → ¬ hmacFn secret req.body = s) :
    paystack_webhook hmacFn parse secret now db req = (db, 400)
    ∧ ∀ (payload sig : String), ¬ hmacFn secret payload = sig →
        PaystackGateway.process_webhook hmacFn parse secret now db payload sig
          = (db, { success := false, message := "Invalid webhook signature" }) := by
  constructor
  · cases hs : req.signature with
    | none => simp [paystack_webhook, hs]
    | some s =>
      have hne := h s hs
      simp [paystack_webhook, hs, hne]
  · intro payload sig hne
    simp [PaystackGateway.process_webhook,
          PaystackGateway.verify_webhook_signature, hne]

/-- C4 witness: the concrete tampered request (signature WRONG against
the expected skB) is answered 400 and the mismatching gateway call fails
without touching the state. -/
theorem c4_invalid_signature_witness :
    paystack_webhook concatHmac (fun _ => some plChargeSuccess) "sk" 7
        dbPending { body := "B", signature := some "WRONG" } = (dbPending, 400)
    ∧ ∀ (payload sig : String), ¬ concatHmac "sk" payload = sig →
        PaystackGateway.process_webhook concatHmac (fun _ => some plChargeSuccess)
            "sk" 7 dbPending payload sig
          = (dbPending, { success := false, message := "Invalid webhook signature" }) :=
  c4_invalid_signature_rejected concatHmac (fun _ => some plChargeSuccess) "sk" 7
    dbPending { body := "B", signature := some "WRONG" }
    (by intro s hs; cases hs; decide)

/-! ## C5: unconditional webhook audit trail -/

/-- C5 (counterexample): the routed paystack_webhook view persists no
PaymentWebhook audit row at all — a valid-signature webhook with an
ignored event type completes with 200 and the webhooks table still
empty, against the claimed unconditional audit row. -/
theorem c5_view_no_audit_counterexample :
    (paystack_webhook concatHmac (fun _ => some plOther) "sk" 7
        dbPending reqValid).2 = 200
    ∧ (paystack_webhook concatHmac (fun _ => some plOther) "sk" 7
        dbPending reqValid).1.webhooks = [] := by
  decide

/-- Marking one webhook row processed leaves rows with other ids alone. -/
theorem map_markProcessed_fresh (now : Nat) (wid : String) :
    ∀ (l : List PaymentWebhook), (∀ w ∈ l, ¬ w.webhook_id = wid) →
      l.map (fun w => if w.webhook_id = wid then
        { w with processed := true, processed_at := some now } else w) = l := by
  intro l
  induction l with
  | nil => intro _; rfl
  | cons x xs ih =>
    intro h
    have hx : ¬ x.webhook_id = wid := h x (by simp)
    simp only [List.map_cons, List.cons.injEq]
    constructor
    · simp [hx]
    · exact ih (fun w hw => h w (by simp [hw]))

theorem webhooks_replace_ops (db : DB) (p : Payment) (o : Order) :
    ((db.replacePayment p).replaceOrder o).webhooks = db.webhooks := rfl

/-- C5 (amended): PaystackGateway.process_webhook persists exactly one
PaymentWebhook audit row for every webhook that passes signature
verification and parsing (fresh webhook_id), and that row is marked
processed with a timestamp on every completing path — successful charge,
failed charge, transfer, ignored event types, and not-found references
alike; the routed paystack_webhook view, however, persists no audit rows
at all. -/
theorem c5_gateway_audit_amended
    (hmacFn : String → String → String) (parse : String → Option WebhookPayload)
    (secret : String) (now : Nat) (db : DB) (payload sig : String)
    (wd : WebhookPayload)
    (hsig : hmacFn secret payload = sig)
    (hparse : parse payload = some wd)
    (hfresh : ∀ w ∈ db.webhooks, ¬ w.webhook_id = wd.top_id) :
    (PaystackGateway.process_webhook hmacFn parse secret now db payload sig).1.webhooks
      = ({ webhook_id := wd.top_id, gateway_name := "paystack",
           event_type := wd.event, payment_reference := wd.reference,
           processed := true, processed_at := some now } : PaymentWebhook)
        :: db.webhooks := by
  have hany : db.webhooks.any (fun w => w.webhook_id == wd.top_id) = false := by
    rw [List.any_eq_false]
    intro w hw
    simp [hfresh w hw]
  simp only [PaystackGateway.process_webhook,
    PaystackGateway.verify_webhook_signature, hsig, hparse, hany, beq_self_eq_true,
    Bool.not_true, Bool.false_eq_true, if_false]
  have hmap := map_markProcessed_fresh now wd.top_id db.webhooks hfresh
  by_cases e1 : wd.event == "charge.success"
  · simp only [e1, if_true]
    simp only [PaystackGateway.handle_successful_charge]
    cases hp : DB.findPayment
        { db with webhooks := { webhook_id := wd.top_id, gateway_name := "paystack",
                                event_type := wd.event, payment_reference := wd.reference,
                                processed := false, processed_at := none } :: db.webhooks }
        wd.reference with
    | none => simp [hmap]
    | some p =>
      cases ho : DB.findOrder
          { db with webhooks := { webhook_id := wd.top_id, gateway_name := "paystack",
                                  event_type := wd.event, payment_reference := wd.reference,
                                  processed := false, processed_at := none } :: db.webhooks }
          p.order_id with
      | none => simp [hp, ho, hmap]
      | some o => simp [hp, ho, hmap, DB.replacePayment, DB.replaceOrder]
  · by_cases e2 : wd.event == "charge.failed"
    · simp only [e1, e2, Bool.false_eq_true, if_false, if_true]
      simp only [PaystackGateway.handle_failed_charge]
      cases hp : DB.findPayment
          { db with webhooks := { webhook_id := wd.top_id, gateway_name := "paystack",
                                  event_type := wd.event, payment_reference := wd.reference,
                                  processed := false, processed_at := none } :: db.webhooks }
          wd.reference with
      | none => simp [hmap]
      | some p => simp [hp, hmap, DB.replacePayment]
    · by_cases e3 : wd.event == "transfer.success"
      · simp [e1, e2, e3, hmap]
      · simp [e1, e2, e3, hmap]

/-- C5 witness for the amended theorem: the valid ignored-event webhook
WH3 leaves exactly one processed audit row. -/
theorem c5_gateway_audit_witness :
    (PaystackGateway.process_webhook concatHmac (fun _ => some plOther)
        "sk" 7 dbPending "B" "skB").1.webhooks
      = ({ webhook_id := "WH3", gateway_name := "paystack",
           event_type := "charge.other", payment_reference := "PAY_1",
           processed := true, processed_at := some 7 } : PaymentWebhook) :: [] :=
  c5_gateway_audit_amended concatHmac (fun _ => some plOther) "sk" 7 dbPending
    "B" "skB" plOther rfl rfl (by intro w hw; simp [dbPending] at hw)

/-! ## C7: insufficient stock fails order creation atomically -/

/-- The create_order item loop hits exactly the first cart item failing
the can_purchase re-check (the loop only grows order_items, which the
stock check never reads). -/
theorem createOrderItemsLoop_first_failure (newId : Nat) (db0 : DB) :
    ∀ (l : List CartItem) (db : DB), db.products = db0.products →
      ∀ ci, l.find? (fun x => !(db0.canPurchaseItem x)) = some ci →
      createOrderItemsLoop newId db l
        = Except.error (db0.titleOf ci.product_id ++ " is out of stock") := by
  intro l
  induction l with
  | nil =>
    intro db hp ci h
    simp [List.find?] at h
  | cons x xs ih =>
    intro db hp ci h
    have hcan : db.canPurchaseItem x = db0.canPurchaseItem x := by
      simp [DB.canPurchaseItem, DB.findProduct, hp]
    have htitle : db.titleOf x.product_id = db0.titleOf x.product_id := by
      simp [DB.titleOf, DB.findProduct, hp]
    cases hx : db0.canPurchaseItem x with
    | true =>
      simp only [List.find?_cons, hx, Bool.not_true] at h
      simp only [createOrderItemsLoop, hcan, hx, Bool.not_true,
        Bool.false_eq_true, if_false]
      exact ih { db with order_items :=
        { order_id := newId, product_id := x.product_id, quantity := x.quantity,
          price := db.displayPriceOf x.product_id } :: db.order_items } hp ci h
    | false =>
      simp only [List.find?_cons, hx, Bool.not_false] at h
      cases h
      simp only [createOrderItemsLoop, hcan, hx, Bool.not_false, if_true, htitle]

/-- Deleting a freshly inserted order (with no pre-existing rows under
its id) by cascade restores the original database. -/
theorem deleteOrderCascade_fresh_insert (db : DB) (o : Order) (newId : Nat)
    (ho : o.oid = newId)
    (h1 : ∀ x ∈ db.orders, ¬ x.oid = newId)
    (h2 : ∀ x ∈ db.order_items, ¬ x.order_id = newId)
    (h3 : ∀ x ∈ db.payments, ¬ x.order_id = newId) :
    DB.deleteOrderCascade { db with orders := o :: db.orders } newId = db := by
  cases db
  simp only at h1 h2 h3
  simp [DB.deleteOrderCascade, List.filter_cons, ho]
  exact ⟨h1, h2, h3⟩

/-- C7: an order-creation attempt (payments/views.py initiate_payment
and orders/views.py create_order) whose cart contains an item failing
the can_purchase re-check fails with the failing product named in the
message and leaves the database exactly as it was: no Order, OrderItem,
or Payment row remains persisted. -/
theorem c7_insufficient_stock_atomic
    (config : SiteConfig) (now : Nat) (initResp : InitResponse)
    (newOrderId : Nat) (newRef : String) (db : DB) (userId : Nat)
    (ft : String) (addr : Option Nat) (email name : String) (ci : CartItem)
    (hft : ft = "hold_asset" ∨ ft = "deliver")
    (hcart : db.carts.contains userId = true)
    (hfail : (db.cartItemsOf userId).find? (fun x => !(db.canPurchaseItem x)) = some ci)
    (hfresh_o : ∀ x ∈ db.orders, ¬ x.oid = newOrderId)
    (hfresh_i : ∀ x ∈ db.order_items, ¬ x.order_id = newOrderId)
    (hfresh_p : ∀ x ∈ db.payments, ¬ x.order_id = newOrderId) :
    initiate_payment config now initResp newOrderId newRef db userId ft addr email name
      = (db, { success := false, http_status := 400,
               message := db.titleOf ci.product_id
                 ++ " is out of stock or has insufficient quantity" })
    ∧ create_order config newOrderId db userId ft addr
      = (db, { success := false, http_status := 200,
               message := db.titleOf ci.product_id ++ " is out of stock" }) := by
  have hne : (db.cartItemsOf userId).isEmpty = false := by
    cases hl : db.cartItemsOf userId with
    | nil => rw [hl] at hfail; simp [List.find?] at hfail
    | cons a l => simp [List.isEmpty]
  have hftb : (ft == "hold_asset" || ft == "deliver") = true := by
    rcases hft with h | h <;> simp [h]
  have hmem : userId ∈ db.carts := by simpa using hcart
  constructor
  · simp [initiate_payment, hftb, hcart, hmem, hne, hfail]
  · have hloop := createOrderItemsLoop_first_failure newOrderId db
      (db.cartItemsOf userId)
      { db with orders :=
          ({ oid := newOrderId, user_id := userId, status := "pending",
             fulfillment_type := ft, subtotal := 0, shipping_cost := 0,
             tax_amount := 0, total := 0, shipping_address := addr,
             tracking_number := "", shipped_at := none, delivered_at := none,
             payment_reference := "", paid_at := none } : Order) :: db.orders }
      rfl ci hfail
    have hdel := deleteOrderCascade_fresh_insert db
      ({ oid := newOrderId, user_id := userId, status := "pending",
         fulfillment_type := ft, subtotal := 0, shipping_cost := 0,
         tax_amount := 0, total := 0, shipping_address := addr,
         tracking_number := "", shipped_at := none, delivered_at := none,
         payment_reference := "", paid_at := none } : Order) newOrderId rfl
      hfresh_o hfresh_i hfresh_p
    simp [create_order, hftb, hne, hloop, hdel]

/-- C7 witness: the concrete cart asking for 3 Widgets against stock 2
fails both creation paths with the Widget named and the database
unchanged. -/
theorem c7_insufficient_stock_witness :
    initiate_payment sampleConfig 7 { ok := true, authorization_url := "u", access_code := "c" }
        2 "PAY_2" { dbPending with cart_items := [{ user_id := 1, product_id := 1, quantity := 3 }] }
        1 "deliver" (some 1) "u@example.com" "U"
      = ({ dbPending with cart_items := [{ user_id := 1, product_id := 1, quantity := 3 }] },
         { success := false, http_status := 400,
           message := "Widget is out of stock or has insufficient quantity" })
    ∧ create_order sampleConfig 2
        { dbPending with cart_items := [{ user_id := 1, product_id := 1, quantity := 3 }] }
        1 "deliver" (some 1)
      = ({ dbPending with cart_items := [{ user_id := 1, product_id := 1, quantity := 3 }] },
         { success := false, http_status := 200, message := "Widget is out of stock" }) :=
  c7_insufficient_stock_atomic sampleConfig 7
    { ok := true, authorization_url := "u", access_code := "c" } 2 "PAY_2"
    { dbPending with cart_items := [{ user_id := 1, product_id := 1, quantity := 3 }] }
    1 "deliver" (some 1) "u@example.com" "U"
    { user_id := 1, product_id := 1, quantity := 3 }
    (Or.inr rfl) (by decide) (by decide)
    (by decide) (by decide) (by decide)

/-! ## C8: the Order status state machine -/

/-- orders/models.py Order.STATUS_CHOICES (the status keys). -/
def STATUS_CHOICES : List String :=
  ["pending", "paid", "shipped", "delivered", "cancelled"]

/-- C8 (counterexample): core/analytics_views.py update_order_status
moves the concrete pending order straight to shipped — a transition that
skips paid, is not gateway-driven, and is not in the specified state
machine. -/
theorem c8_skip_transition_counterexample :
    ((update_order_status 9 dbPending 1 "shipped" "").1.findOrder 1).map Order.status
      = some "shipped"
    ∧ (dbPending.findOrder 1).map Order.status = some "pending"
    ∧ specAllowedTransition "deliver" "pending" "shipped" = false := by
  decide

/-- Replacing the found order makes the replacement the found order. -/
theorem find?_replace (oid : Nat) (o o' : Order) (ho' : o'.oid = o.oid) :
    ∀ (l : List Order), l.find? (fun x => x.oid == oid) = some o →
      (l.map (fun x => if x.oid == o'.oid then o' else x)).find?
          (fun x => x.oid == oid) = some o' := by
  intro l
  induction l with
  | nil => intro h; simp [List.find?] at h
  | cons x xs ih =>
    intro h
    cases hx : (x.oid == oid) with
    | true =>
      simp only [List.find?_cons, hx] at h
      cases h
      have hco : (o'.oid == oid) = true := by rw [ho']; exact hx
      have hxo : (o.oid == o'.oid) = true := by rw [ho']; simp
      simp only [List.map_cons, List.find?_cons, hxo, if_true, hco]
    | false =>
      simp only [List.find?_cons, hx] at h
      have hooid : (o.oid == oid) = true := by
        have := List.find?_some h
        simpa using this
      have hco : o'.oid = oid := by rw [ho']; simpa using hooid
      have hxo : (x.oid == o'.oid) = false := by rw [hco]; exact hx
      simp only [List.map_cons, hxo, Bool.false_eq_true, if_false,
        List.find?_cons, hx]
      exact ih h

/-- DB form of find?_replace. -/
theorem findOrder_replace (db : DB) (oid : Nat) (o o' : Order)
    (h : db.findOrder oid = some o) (ho' : o'.oid = o.oid) :
    (db.replaceOrder o').findOrder oid = some o' :=
  find?_replace oid o o' ho' db.orders h

/-- C8 (amended): the status machinery the code does enforce: the status
keys contain no liquidated value and liquidate_assets keeps the status
unchanged (paid stays paid while fulfillment converts to deliver);
cancel_order refuses any non-pending order and cancels a pending one;
update_order_status validates only that delivered requires shipped — any
other requested status string is applied as-is, so transitions may skip
states. -/
theorem c8_status_machine_amended
    (db : DB) (oid uid now : Nat) (notes : String) (o : Order)
    (hfind : db.findOrder oid = some o) :
    STATUS_CHOICES.contains "liquidated" = false
    ∧ (¬ o.status = "pending" → cancel_order db oid uid = (db, false))
    ∧ (o.user_id = uid → o.status = "pending" →
        ((cancel_order db oid uid).1.findOrder oid).map Order.status
          = some "cancelled")
    ∧ (¬ o.status = "shipped" →
        update_order_status now db oid "delivered" notes = (db, false))
    ∧ (∀ (config : SiteConfig) (items : List OrderItem) (addr : Nat),
        ((Order.liquidate_assets config items addr o).1).status = o.status) := by
  refine ⟨by decide, ?_, ?_, ?_, ?_⟩
  · intro hnp
    simp [cancel_order, hfind, hnp]
  · intro huid hp
    have hu : (!(o.user_id == uid)) = false := by simp [huid]
    have hs : (!(o.status == "pending")) = false := by simp [hp]
    have hrw := findOrder_replace db oid o { o with status := "cancelled" } hfind rfl
    simp only [cancel_order, hfind, hu, hs, Bool.false_eq_true, if_false]
    rw [hrw]
    rfl
  · intro hns
    simp [update_order_status, hfind, hns]
  · intro config items addr
    simp only [Order.liquidate_assets]
    cases hg : (o.fulfillment_type == "hold_asset" && o.status == "paid") with
    | false => simp [hg]
    | true =>
      have hp : o.status = "paid" := by
        have := (Bool.and_eq_true _ _).mp hg
        simpa using this.2
      simp [hg, Order.calculate_totals, hp]

/-- C8 witness: the concrete pending order is cancelled by cancel_order,
refused the delivered jump by update_order_status, and keeps its status
through liquidate_assets. -/
theorem c8_status_machine_witness :
    ((cancel_order dbPending 1 1).1.findOrder 1).map Order.status = some "cancelled"
    ∧ update_order_status 9 dbPending 1 "delivered" "" = (dbPending, false)
    ∧ (Order.liquidate_assets sampleConfig [] 5 oPending).1.status = oPending.status :=
  ⟨(c8_status_machine_amended dbPending 1 1 9 "" oPending (by decide)).2.2.1 rfl rfl,
   (c8_status_machine_amended dbPending 1 1 9 "" oPending (by decide)).2.2.2.1 (by decide),
   (c8_status_machine_amended dbPending 1 1 9 "" oPending (by decide)).2.2.2.2
     sampleConfig [] 5⟩

/-! ## C9: initialize then verify before settlement -/

/-- The payment PAY_1 right after a successful initialization. -/
def pProcessing : Payment :=
  { pPending with status := "processing", processed_at := some 1,
                  gateway_data := [("authorization_url", "u"), ("access_code", "c")] }

theorem pProcessing_amount_in_kobo : pProcessing.amount_in_kobo = 1175000 := by
  have h100 : (pProcessing.amount * 100 : Rat) = ((1175000 : Int) : Rat) := by
    norm_num [pProcessing, pPending]
  simp [Payment.amount_in_kobo, h100, Rat.floor_def']

/-- C9 (counterexample): verifying right after initialization, with the
gateway truthfully reporting the matching amount and a non-settled
transaction status (abandoned), marks the payment failed — a status
outside the claimed {pending, processing}. -/
theorem c9_verify_marks_failed_counterexample :
    (PaystackGateway.verify_payment 2
        { ok := true, txn_amount := 1175000, txn_status := "abandoned",
          txn_id := "T9", gateway_response := "abandoned" }
        ((PaymentService.initialize_payment 1
            { ok := true, authorization_url := "u", access_code := "c" }
            pPending).1)
        oPending).1.status = "failed"
    ∧ ¬ ("failed" = "pending" ∨ "failed" = "processing") := by
  have hinit : (PaymentService.initialize_payment 1
      { ok := true, authorization_url := "u", access_code := "c" } pPending).1
      = pProcessing := by decide
  rw [hinit]
  constructor
  · simp only [PaystackGateway.verify_payment, pProcessing_amount_in_kobo]
    decide
  · decide

/-- mark_as_failed always lands on status failed. -/
theorem mark_as_failed_status (p : Payment) (m c : Option String) :
    (Payment.mark_as_failed m c p).status = "failed" := by
  unfold Payment.mark_as_failed
  by_cases h1 : truthy m <;> by_cases h2 : truthy c <;> simp [h1, h2]

/-- C9 (amended): initialize(payment) followed immediately by
verify(payment) with the gateway reporting a non-success transaction
status leaves payment.status in {pending, processing, failed} and never
success: a falsy envelope leaves the payment untouched, and an ok
envelope with a non-settled status (or an amount mismatch) marks the
payment failed rather than leaving it pending. -/
theorem c9_initialize_verify_amended
    (now1 now2 : Nat) (initResp : InitResponse) (resp : VerifyResponse)
    (p : Payment) (o : Order)
    (hp : p.status = "pending")
    (hresp : ¬ resp.txn_status = "success") :
    ¬ ((PaystackGateway.verify_payment now2 resp
          (PaymentService.initialize_payment now1 initResp p).1 o).1.status
        = "success")
    ∧ ((PaystackGateway.verify_payment now2 resp
          (PaymentService.initialize_payment now1 initResp p).1 o).1.status
          = "pending"
      ∨ (PaystackGateway.verify_payment now2 resp
          (PaymentService.initialize_payment now1 initResp p).1 o).1.status
          = "processing"
      ∨ (PaystackGateway.verify_payment now2 resp
          (PaymentService.initialize_payment now1 initResp p).1 o).1.status
          = "failed") := by
  have hp1 : ((PaymentService.initialize_payment now1 initResp p).1.status = "pending")
      ∨ ((PaymentService.initialize_payment now1 initResp p).1.status = "processing") := by
    simp only [PaymentService.initialize_payment, PaystackGateway.initialize_payment]
    by_cases hv : PaymentService.validate_payment p
    · cases hio : initResp.ok with
      | true => simp [hv, hio, Payment.mark_as_processing]
      | false => simp [hv, hio, hp]
    · simp [hv, hp]
  have hnotsucc : ((PaymentService.initialize_payment now1 initResp p).1.is_successful)
      = false := by
    rcases hp1 with h | h <;> simp [Payment.is_successful, h]
  have key : (PaystackGateway.verify_payment now2 resp
        (PaymentService.initialize_payment now1 initResp p).1 o).1.status
        = (PaymentService.initialize_payment now1 initResp p).1.status
      ∨ (PaystackGateway.verify_payment now2 resp
        (PaymentService.initialize_payment now1 initResp p).1 o).1.status
        = "failed" := by
    have hts : (resp.txn_status == "success") = false := by simp [hresp]
    unfold PaystackGateway.verify_payment
    cases hok : resp.ok with
    | false => left; simp
    | true =>
      simp only [if_true, hnotsucc, Bool.false_eq_true, if_false]
      cases hamt : (resp.txn_amount == (PaymentService.initialize_payment now1
          initResp p).1.amount_in_kobo) with
      | false =>
        simp only [hamt, Bool.not_false, if_true]
        right; exact mark_as_failed_status _ _ _
      | true =>
        simp only [hamt, Bool.not_true, Bool.false_eq_true, if_false, hts]
        right; exact mark_as_failed_status _ _ _
  rcases key with hk | hk <;> rcases hp1 with h1 | h1 <;>
    rw [hk] <;> simp [h1]

/-- C9 witness for the amended theorem at the abandoned-transaction
verify response. -/
theorem c9_initialize_verify_witness :
    ¬ ((PaystackGateway.verify_payment 2
          { ok := true, txn_amount := 1175000, txn_status := "abandoned",
            txn_id := "T9", gateway_response := "abandoned" }
          (PaymentService.initialize_payment 1
            { ok := true, authorization_url := "u", access_code := "c" }
            pPending).1 oPending).1.status = "success") :=
  (c9_initialize_verify_amended 1 2
    { ok := true, authorization_url := "u", access_code := "c" }
    { ok := true, txn_amount := 1175000, txn_status := "abandoned",
      txn_id := "T9", gateway_response := "abandoned" }
    pPending oPending rfl (by decide)).1

/-! ## C10: the pipeline never touches product stock -/

theorem saveOrder_status_paid_at_ok (db : DB) (o : Order) :
    db.saveOrderUpdateFields ["status", "paid_at"] o = Except.ok (db.replaceOrder o) := rfl

theorem saveOrder_status_ok (db : DB) (o : Order) :
    db.saveOrderUpdateFields ["status"] o = Except.ok (db.replaceOrder o) := rfl

theorem savePayment_raw_response_error (db : DB) (p : Payment) :
    db.savePaymentUpdateFields ["status", "raw_response"] p
      = Except.error "ValueError: update_fields names a non-field" := rfl

theorem paystack_webhook_products (hmacFn : String → String → String)
    (parse : String → Option WebhookPayload) (secret : String) (now : Nat)
    (db : DB) (req : HttpRequest) :
    (paystack_webhook hmacFn parse secret now db req).1.products = db.products := by
  unfold paystack_webhook
  split
  · rfl
  · split
    · rfl
    · split
      · rfl
      · split
        · split
          · rfl
          · split
            · rfl
            · split
              · rfl
              · rfl
        · split
          · split
            · rfl
            · split
              · rfl
              · split
                · rfl
                · rfl
          · split
            · split
              · rfl
              · split
                · rfl
                · split
                  · rfl
                  · rfl
            · rfl

theorem process_webhook_products (hmacFn : String → String → String)
    (parse : String → Option WebhookPayload) (secret : String) (now : Nat)
    (db : DB) (payload sig : String) :
    (PaystackGateway.process_webhook hmacFn parse secret now db payload sig).1.products
      = db.products := by
  unfold PaystackGateway.process_webhook
  split
  · rfl
  · split
    · rfl
    · split
      · rfl
      · dsimp only
        split
        · unfold PaystackGateway.handle_successful_charge
          dsimp only
          split
          all_goals first
            | rfl
            | (split <;> rfl)
        · split
          · unfold PaystackGateway.handle_failed_charge
            dsimp only
            split <;> rfl
          · split <;> rfl

theorem payment_verification_products (now : Nat) (resp : VerifyResponse)
    (db : DB) (reference : String) (userId : Nat) :
    (payment_verification now resp db reference userId).1.products = db.products := by
  unfold payment_verification
  split
  · rfl
  · split
    · rfl
    · split
      · rfl
      · rfl

theorem initiate_payment_products (config : SiteConfig) (now : Nat)
    (initResp : InitResponse) (newOrderId : Nat) (newRef : String) (db : DB)
    (userId : Nat) (ft : String) (addr : Option Nat) (email name : String) :
    (initiate_payment config now initResp newOrderId newRef db userId ft addr
        email name).1.products = db.products := by
  unfold initiate_payment
  split
  · rfl
  · split
    · rfl
    · dsimp only
      split
      · rfl
      · split
        · rfl
        · split <;> rfl

theorem create_order_products (config : SiteConfig) (newOrderId : Nat) (db : DB)
    (userId : Nat) (ft : String) (addr : Option Nat) :
    (create_order config newOrderId db userId ft addr).1.products = db.products := by
  unfold create_order
  dsimp only
  split
  · rfl
  · split
    · rfl
    · split
      · rename_i heq
        rfl
      · rename_i db2 heq
        have := createOrderItemsLoop_products newOrderId _ _ _ heq
        simp [DB.replaceOrder, DB.clearCart]
        exact this

/-- C10: no operation of the order-payment pipeline — order creation
(both views), payment verification, the routed webhook endpoint, or the
gateway webhook processor — changes the products table, so
Product.stock_quantity is never decremented by any of them
(Product.reduce_stock, the only stock-decrementing operation, is never
invoked): stock is only soft-checked through can_purchase. -/
theorem c10_pipeline_preserves_stock (config : SiteConfig) (now : Nat)
    (initResp : InitResponse) (newOrderId : Nat) (newRef : String) (db : DB)
    (userId : Nat) (ft : String) (addr : Option Nat) (email name : String)
    (hmacFn : String → String → String) (parse : String → Option WebhookPayload)
    (secret : String) (req : HttpRequest) (payload sig : String)
    (resp : VerifyResponse) (reference : String) :
    (initiate_payment config now initResp newOrderId newRef db userId ft addr
        email name).1.products = db.products
    ∧ (create_order config newOrderId db userId ft addr).1.products = db.products
    ∧ (paystack_webhook hmacFn parse secret now db req).1.products = db.products
    ∧ (PaystackGateway.process_webhook hmacFn parse secret now db payload
        sig).1.products = db.products
    ∧ (payment_verification now resp db reference userId).1.products
        = db.products :=
  ⟨initiate_payment_products config now initResp newOrderId newRef db userId ft
     addr email name,
   create_order_products config newOrderId db userId ft addr,
   paystack_webhook_products hmacFn parse secret now db req,
   process_webhook_products hmacFn parse secret now db payload sig,
   payment_verification_products now resp db reference userId⟩

end SDMS
